import Mathlib

/-!
# Verification of the organization-scoped time-tracking backend

Shallow embedding of the backend routes and auth middleware of the
multi-tenant time-tracking application (FastAPI + MongoDB source under
`backend/`), together with proofs and refutations of the frozen claims
about its specification.

Conventions of the embedding:
* MongoDB collections are Lean lists of typed documents; `find_one` is
  `List.find?` (first match in insertion order), `update_one` updates the
  first matching document, `insert_one` appends.
* `datetime` values are `Int` seconds since the epoch; `int(td.total_seconds())`
  on whole-second datetimes is exact `Int` subtraction.
* Python truthiness of an optional string (`if not user_id`, `if org_id and …`)
  is `truthy`: `None` and `""` are falsy.
* HTTP failures (`HTTPException`) are `Except.error` carrying status code and
  `detail` string; handlers return `Except HErr α`.
* Floating-point activity scores are embedded as rationals (`ℚ`); the scores
  compared in the analyzer are sums/quotients of small decimals, where `ℚ`
  agrees with IEEE doubles on every comparison threshold used.
-/

namespace Hubstaff

/-- An HTTP error response: status code and `detail` payload, as raised by
`HTTPException(status_code=…, detail=…)`. -/
structure HErr where
  code : Nat
  detail : String
deriving DecidableEq, Repr

/-- Handler result: either an HTTP error or a value. -/
abbrev Result (α : Type) := Except HErr α

/-- Python truthiness of an optional string: `None` and `""` are falsy. -/
def truthy : Option String → Bool
  | none => false
  | some s => s ≠ ""

/-- Python `a or b` on optional strings: `b` when `a` is falsy. -/
def pyOr (a b : Option String) : Option String :=
  if truthy a then a else b

/-- Mongo `update_one` style update of the first element satisfying `p`;
returns whether a match was found together with the updated list. -/
def updateFirst (l : List α) (p : α → Bool) (f : α → α) : Bool × List α :=
  match l with
  | [] => (false, [])
  | x :: xs =>
    if p x then (true, f x :: xs)
    else
      let r := updateFirst xs p f
      (r.1, x :: r.2)

/-- A stored `users` document (fields used by the auth and route code).
`organization_id` is `Option` because legacy rows may lack it (the
"needs migration" guard in `auth/dependencies.py` exists for exactly that). -/
structure UserDoc where
  id : String
  name : String
  email : String
  role : String
  status : String
  organization_id : Option String
  is_organization_owner : Bool
  email_verified : Bool
  last_active : Option String
  password : String
deriving DecidableEq, Repr

/-- Modelled from the spec: `auth/jwt_handler.py` is not in the source tree
(only its importers are).  Per spec §4.1 the verifier returns the decoded
claims: either the **legacy shape** (a bare `user_id` string) or a claims
object with the keys `user_id`, `sub`, `org_id` (each possibly absent).
A payload of this type is the output of a *successful* `verify_token`. -/
inductive TokenPayload where
  | legacy (user_id : String)
  | claims (user_id : Option String) (sub : Option String) (org_id : Option String)
deriving DecidableEq, Repr

/-- The read-time data repair in `get_current_user`/`get_optional_user`:
`status == 'online'` is normalized to `'active'`, and the stale literal
`'datetime.utcnow()'` in `last_active` is dropped. -/
def cleanupUser (u : UserDoc) : UserDoc :=
  let u := if u.status == "online" then { u with status := "active" } else u
  if u.last_active == some "datetime.utcnow()" then { u with last_active := none } else u

/-- The `detail` of the needs-migration `401` in `get_current_user`. -/
def migrationDetail : String :=
  "User account needs to be migrated to organization structure. Please contact support."

/-- Function `get_current_user` of `auth/dependencies.py`: resolve a verified token
payload to a principal against the `users` collection. -/
def get_current_user (users : List UserDoc) (payload : TokenPayload) : Result UserDoc :=
  let uid? : Option String :=
    match payload with
    | .legacy uid => some uid
    | .claims u s _ => pyOr u s
  let orgId? : Option String :=
    match payload with
    | .legacy _ => none
    | .claims _ _ o => o
  if ¬ truthy uid? then
    .error ⟨401, "Invalid token"⟩
  else
    match users.find? (fun u => u.id == uid?.getD "") with
    | none => .error ⟨401, "User not found"⟩
    | some u =>
      if truthy orgId? ∧ u.organization_id ≠ orgId? then
        .error ⟨401, "Invalid organization context"⟩
      else
        let u := cleanupUser u
        if ¬ truthy u.organization_id then
          .error ⟨401, migrationDetail⟩
        else
          .ok u

/-- An issued access token's claims (`create_access_token` data). -/
structure Token where
  sub : Option String
  user_id : String
  org_id : String
deriving DecidableEq, Repr

/-- Endpoint `refresh_token` of `routes/auth.py` (the token-shape and user checks;
the input is the verified payload of the supplied refresh token). -/
def refresh_token (users : List UserDoc) (payload : TokenPayload) : Result Token :=
  match payload with
  | .legacy _ =>
    .error ⟨401, "Token format outdated. Please log in again."⟩
  | .claims uid? sub? org? =>
    if ¬ (truthy uid? ∧ truthy org?) then
      .error ⟨401, "Invalid token format"⟩
    else
      match users.find? (fun u => u.id == uid?.getD "" && u.organization_id == org?) with
      | none => .error ⟨401, "User not found or organization mismatch"⟩
      | some _ => .ok ⟨sub?, uid?.getD "", org?.getD ""⟩

/-- Python truthiness of the raw `verify_token` result inside
`get_optional_user`: a bare string is truthy iff nonempty, a decoded claims
dict is truthy iff it has at least one key. -/
def payloadTruthy : TokenPayload → Bool
  | .legacy s => s ≠ ""
  | .claims u s o => u.isSome || s.isSome || o.isSome

/-- The filter `{"id": user_id}` of `get_optional_user`, where `user_id` is
the *whole* `verify_token` result: a stored string id can equal a bare
string payload, never a claims object. -/
def idFilterMatches (payload : TokenPayload) (u : UserDoc) : Bool :=
  match payload with
  | .legacy s => u.id == s
  | .claims _ _ _ => false

/-- Function `get_optional_user` of `auth/dependencies.py`: it binds the entire
`verify_token` result to `user_id` and uses it as the lookup filter, with no
organization comparison and no migration guard. -/
def get_optional_user (users : List UserDoc) (credentials : Option TokenPayload) :
    Option UserDoc :=
  match credentials with
  | none => none
  | some payload =>
    if ¬ payloadTruthy payload then none
    else
      match users.find? (idFilterMatches payload) with
      | none => none
      | some u => some (cleanupUser u)

/-- A resolved principal as seen by route handlers: the `User` model object
returned by `get_current_user`, whose `organization_id` is a required string. -/
structure Principal where
  id : String
  organization_id : String
  role : String
deriving DecidableEq, Repr

/-- Modelled from the spec: `models/project.py` is not in the source tree.
A `projects` document, with the fields the routes read and write
(spec §3: each Project carries `organization_id`; `hours_tracked` is
incremented by `duration/3600` on stop). -/
structure ProjectDoc where
  id : String
  name : String
  organization_id : String
  created_by : String
  hours_tracked : ℚ
deriving DecidableEq, Repr

/-- Modelled from the spec: `models/project.py` is not in the source tree.
A `tasks` document (spec §3: a Task carries `organization_id` and
`project_id`; an assignee must be a same-organization user). -/
structure TaskDoc where
  id : String
  project_id : String
  organization_id : String
  assignee_id : String
  status : String
  updated_at : Int
deriving DecidableEq, Repr

/-- One element of a time entry's `pause_periods` list. -/
structure PausePeriod where
  pause_time : Int
  resume_time : Option Int
deriving DecidableEq, Repr

/-- Modelled from the spec: `models/time_tracking.py` is not in the source
tree.  A `time_entries` document per spec §3: `end_time` null while running,
`duration` computed on stop, `is_paused`, ordered `pause_periods`,
cumulative `total_pause_duration`.  A freshly started entry is Running:
`end_time = None`, `is_paused = False`, no pause periods, zero accumulated
pause (the route passes only user/project/task/organization/start_time). -/
structure TimeEntryDoc where
  id : String
  user_id : String
  organization_id : String
  project_id : String
  task_id : Option String
  start_time : Option Int
  end_time : Option Int
  duration : Option Int
  is_paused : Bool
  pause_periods : List PausePeriod
  total_pause_duration : Int
deriving DecidableEq, Repr

/-- An `organizations` document. -/
structure OrgDoc where
  id : String
  name : String
  domain : String
  email : String
  plan : String
  status : String
  max_users : Nat
  current_users : Nat
  trial_ends_at : Option Int
  owner_id : Option String
deriving DecidableEq, Repr

/-- A `password_reset_tokens` document (`PasswordResetToken` model plus the
`organization_id` binding added by `forgot_password`). -/
structure ResetTokenDoc where
  id : String
  email : String
  token : String
  expires_at : Int
  created_at : Int
  used : Bool
  organization_id : Option String
deriving DecidableEq, Repr

/-- The document store: one list per collection touched by the claims. -/
structure DB where
  users : List UserDoc
  organizations : List OrgDoc
  projects : List ProjectDoc
  tasks : List TaskDoc
  time_entries : List TimeEntryDoc
  reset_tokens : List ResetTokenDoc
deriving Repr

/-- Mongo `delete_one`: remove the first element satisfying `p`; returns the
`deleted_count` (0 or 1) with the remaining list. -/
def deleteFirst (l : List α) (p : α → Bool) : Nat × List α :=
  match l with
  | [] => (0, [])
  | x :: xs =>
    if p x then (1, xs)
    else
      let r := deleteFirst xs p
      (r.1, x :: r.2)

/-- Endpoint `GET /projects/(project_id)`: organization-scoped lookup, `404` when the
filter `{"id": project_id, "organization_id": user.organization_id}` is empty. -/
def get_project (projects : List ProjectDoc) (cu : Principal) (project_id : String) :
    Result ProjectDoc :=
  match projects.find? (fun p => p.id == project_id && p.organization_id == cu.organization_id) with
  | none => .error ⟨404, "Project not found"⟩
  | some p => .ok p

/-- Endpoint `DELETE /projects/(project_id)` (body after the `require_admin_or_manager`
gate): organization-scoped existence check, organization-scoped cascading
delete of the project's tasks (`delete_many`), organization-scoped
`delete_one` of the project. -/
def delete_project (db : DB) (cu : Principal) (project_id : String) :
    Result (String × DB) :=
  match db.projects.find? (fun p => p.id == project_id && p.organization_id == cu.organization_id) with
  | none => .error ⟨404, "Project not found"⟩
  | some _ =>
    let tasks' := db.tasks.filter
      (fun t => ¬ (t.project_id == project_id && t.organization_id == cu.organization_id))
    let del := deleteFirst db.projects
      (fun p => p.id == project_id && p.organization_id == cu.organization_id)
    if del.1 == 0 then .error ⟨404, "Project not found"⟩
    else .ok ("Project deleted successfully", { db with tasks := tasks', projects := del.2 })

/-- Modelled from the spec: the `TaskUpdate` pydantic model lives in the
missing `models/project.py`; per spec §4.4 an update payload carries the
optionally-set task fields, of which the handler reads `status` and
`assignee_id` (`exclude_unset` semantics: `none` = not supplied). -/
structure TaskUpdate where
  status : Option String
  assignee_id : Option String
deriving DecidableEq, Repr

/-- Endpoint `PUT /projects/tasks/(task_id)` (`update_task`): organization-scoped
lookup (`404` for cross-tenant ids), assignee/role permission check,
same-organization assignee validation, status-only filtering for plain
assignees, strip of `organization_id`, organization-scoped `$set` update. -/
def update_task (db : DB) (cu : Principal) (task_id : String) (tu : TaskUpdate)
    (now : Int) : Result (TaskDoc × DB) :=
  match db.tasks.find? (fun t => t.id == task_id && t.organization_id == cu.organization_id) with
  | none => .error ⟨404, "Task not found"⟩
  | some task =>
    if task.assignee_id ≠ cu.id ∧ cu.role ≠ "admin" ∧ cu.role ≠ "manager" then
      .error ⟨403, "Only task assignee or admin/manager can update this task"⟩
    else
      let assigneeOk : Bool :=
        match tu.assignee_id with
        | none => true
        | some aid =>
          (db.users.find? (fun u => u.id == aid && u.organization_id == some cu.organization_id)).isSome
      if ¬ assigneeOk then
        .error ⟨400, "Assignee not found in your organization"⟩
      else
        -- exclude_unset payload; a plain assignee's payload is filtered down
        -- to `status` (which the filtering keeps, so `status` survives both ways)
        let statusUpd : Option String := tu.status
        let assigneeUpd : Option String :=
          if task.assignee_id == cu.id && cu.role != "admin" && cu.role != "manager" then
            none
          else tu.assignee_id
        let apply := fun (t : TaskDoc) =>
          let t := match statusUpd with | some st => { t with status := st } | none => t
          let t := match assigneeUpd with | some aid => { t with assignee_id := aid } | none => t
          { t with updated_at := now }
        let hasUpdate := statusUpd.isSome || assigneeUpd.isSome
        let tasks' :=
          if hasUpdate then
            (updateFirst db.tasks
              (fun t => t.id == task_id && t.organization_id == cu.organization_id) apply).2
          else db.tasks
        match tasks'.find? (fun t => t.id == task_id && t.organization_id == cu.organization_id) with
        | none => .error ⟨500, "Failed to update task"⟩
        | some t' => .ok (t', { db with tasks := tasks' })

/-- Python `str.strip()`: drop leading and trailing whitespace. -/
def pyStrip (s : String) : String :=
  ⟨((s.data.dropWhile Char.isWhitespace).reverse.dropWhile Char.isWhitespace).reverse⟩

/-- Endpoint `POST /time-tracking/start`: reject when the user already has an entry
with `end_time = None` (Running or Paused); organization-scoped project and
(optional) task resolution with `404`; insert a fresh Running entry.
`newId` stands for the generated `uuid4` entry id. -/
def start_time_tracking (db : DB) (cu : Principal) (project_id : String)
    (task_id : Option String) (now : Int) (newId : String) :
    Result (TimeEntryDoc × DB) :=
  match db.time_entries.find? (fun e => e.user_id == cu.id && e.end_time == none) with
  | some _ => .error ⟨400, "You already have an active time entry. Please stop it first."⟩
  | none =>
    match db.projects.find?
        (fun p => p.id == project_id && p.organization_id == cu.organization_id) with
    | none => .error ⟨404, "Project not found"⟩
    | some _ =>
      let taskMissing : Bool :=
        truthy task_id &&
          (db.tasks.find? (fun t => some t.id == task_id &&
            t.organization_id == cu.organization_id)).isNone
      if taskMissing then .error ⟨404, "Task not found"⟩
      else
        let e : TimeEntryDoc :=
          { id := newId
            user_id := cu.id
            project_id := project_id
            task_id := task_id
            organization_id := cu.organization_id
            start_time := some now
            end_time := none
            duration := none
            is_paused := false
            pause_periods := []
            total_pause_duration := 0 }
        let users' := (updateFirst db.users
          (fun u => u.id == cu.id && u.organization_id == some cu.organization_id)
          (fun u => { u with status := "active" })).2
        .ok (e, { db with time_entries := db.time_entries ++ [e], users := users' })

/-- The pause total finalized at stop: the stored `total_pause_duration`,
plus — when the entry is currently paused with an open trailing pause
period — the in-flight interval `now - pause_time`. -/
def pauseTotalAtStop (e : TimeEntryDoc) (now : Int) : Int :=
  if e.is_paused then
    match e.pause_periods.getLast? with
    | some pp =>
      if pp.resume_time == none then e.total_pause_duration + (now - pp.pause_time)
      else e.total_pause_duration
    | none => e.total_pause_duration
  else e.total_pause_duration

/-- The persisted duration: `raw_duration = now - start_time` clamped at 0,
minus the finalized pause total, clamped at 0 (`max(0, raw - pause)`). -/
def stopDuration (e : TimeEntryDoc) (st now : Int) : Int :=
  max 0 ((if now - st < 0 then 0 else now - st) - pauseTotalAtStop e now)

/-- Endpoint `POST /time-tracking/stop/(entry_id)`: find the entry by
`{"id": entry_id, "user_id": user.id}`; reject when already stopped or the
start time is missing; `raw_duration = now - start_time` clamped at 0; when
currently paused, accrue the open pause interval into the pause total;
`duration = max(0, raw - total_pause)`; persist `end_time`/`duration`;
increment the project's `hours_tracked` by `duration/3600`; re-read the entry. -/
def stop_time_tracking (db : DB) (cu : Principal) (entry_id : String) (now : Int) :
    Result (TimeEntryDoc × DB) :=
  if pyStrip entry_id == "" then .error ⟨400, "Invalid entry ID provided"⟩
  else
    match db.time_entries.find? (fun e => e.id == entry_id && e.user_id == cu.id) with
    | none => .error ⟨404, "Time entry not found"⟩
    | some e =>
      match e.end_time with
      | some _ => .error ⟨400, "Time entry already stopped"⟩
      | none =>
        match e.start_time with
        | none => .error ⟨400, "Invalid time entry: no start time found"⟩
        | some st =>
          let duration : Int := stopDuration e st now
          let upd := updateFirst db.time_entries (fun e' => e'.id == entry_id)
            (fun e' => { e' with end_time := some now, duration := some duration })
          if ¬ upd.1 then .error ⟨500, "Failed to update time entry"⟩
          else
            let projects' :=
              if e.project_id ≠ "" ∧ 0 < duration then
                (updateFirst db.projects (fun p => p.id == e.project_id)
                  (fun p => { p with hours_tracked := p.hours_tracked + (duration : ℚ) / 3600 })).2
              else db.projects
            match upd.2.find? (fun e' => e'.id == entry_id) with
            | none => .error ⟨500, "Failed to retrieve updated time entry"⟩
            | some e'' =>
              .ok (e'', { db with time_entries := upd.2, projects := projects' })

/-- Endpoint `POST /time-tracking/pause/(entry_id)`: reject when stopped or already
paused; append an open pause period `{pause_time: now, resume_time: None}`;
persist `is_paused`/`pause_periods`; re-read the entry. -/
def pause_time_tracking (db : DB) (cu : Principal) (entry_id : String) (now : Int) :
    Result (TimeEntryDoc × DB) :=
  if pyStrip entry_id == "" then .error ⟨400, "Invalid entry ID provided"⟩
  else
    match db.time_entries.find? (fun e => e.id == entry_id && e.user_id == cu.id) with
    | none => .error ⟨404, "Time entry not found"⟩
    | some e =>
      match e.end_time with
      | some _ => .error ⟨400, "Cannot pause a stopped time entry"⟩
      | none =>
        if e.is_paused then .error ⟨400, "Time entry is already paused"⟩
        else
          let periods := e.pause_periods ++ [⟨now, none⟩]
          let upd := updateFirst db.time_entries (fun e' => e'.id == entry_id)
            (fun e' => { e' with is_paused := true, pause_periods := periods })
          if ¬ upd.1 then .error ⟨500, "Failed to pause time entry"⟩
          else
            match upd.2.find? (fun e' => e'.id == entry_id) with
            | none => .error ⟨500, "Failed to retrieve updated time entry"⟩
            | some e'' => .ok (e'', { db with time_entries := upd.2 })

/-- Close an open trailing pause period (`pause_periods[-1].resume_time = now`). -/
def closeLast (pps : List PausePeriod) (now : Int) : List PausePeriod :=
  match pps.getLast? with
  | some pp =>
    if pp.resume_time == none then pps.dropLast ++ [{ pp with resume_time := some now }]
    else pps
  | none => pps

/-- The `total_pause_duration` recomputation on resume: the sum over all *closed*
pause periods of `resume_time - pause_time`. -/
def closedPauseSum (pps : List PausePeriod) : Int :=
  pps.foldl
    (fun acc pp =>
      match pp.resume_time with
      | some r => acc + (r - pp.pause_time)
      | none => acc)
    0

/-- Endpoint `POST /time-tracking/resume/(entry_id)`: reject when stopped or not
paused; close the open pause period; recompute `total_pause_duration` over
closed periods; persist; re-read the entry. -/
def resume_time_tracking (db : DB) (cu : Principal) (entry_id : String) (now : Int) :
    Result (TimeEntryDoc × DB) :=
  if pyStrip entry_id == "" then .error ⟨400, "Invalid entry ID provided"⟩
  else
    match db.time_entries.find? (fun e => e.id == entry_id && e.user_id == cu.id) with
    | none => .error ⟨404, "Time entry not found"⟩
    | some e =>
      match e.end_time with
      | some _ => .error ⟨400, "Cannot resume a stopped time entry"⟩
      | none =>
        if ¬ e.is_paused then .error ⟨400, "Time entry is not paused"⟩
        else
          let periods := closeLast e.pause_periods now
          let total := closedPauseSum periods
          let upd := updateFirst db.time_entries (fun e' => e'.id == entry_id)
            (fun e' => { e' with is_paused := false, pause_periods := periods,
                                 total_pause_duration := total })
          if ¬ upd.1 then .error ⟨500, "Failed to resume time entry"⟩
          else
            match upd.2.find? (fun e' => e'.id == entry_id) with
            | none => .error ⟨500, "Failed to retrieve updated time entry"⟩
            | some e'' => .ok (e'', { db with time_entries := upd.2 })

/-- Python `str.lower()` (ASCII case folding, as exercised by the
`[a-zA-Z0-9-]+` domain pattern). -/
def pyLower (s : String) : String := s.map Char.toLower

/-- Modelled from the spec: `hash_password` lives in the missing
`auth/jwt_handler.py`; spec §4.1 specifies a one-way hash, embedded here as
an uninterpreted injective tag. -/
def hash_password (p : String) : String := "hashed$" ++ p

/-- Helper `_validate_password_strength` of `routes/organizations.py`: length ≥ 8
and at least one of each of `[A-Z]`, `[a-z]`, `\d`. -/
def _validate_password_strength (password : String) : Bool :=
  if password.length < 8 then false
  else
    password.data.any Char.isUpper && password.data.any Char.isLower &&
      password.data.any Char.isDigit

/-- The `OrganizationRegistration` request body. -/
structure RegistrationInput where
  organization_name : String
  organization_domain : String
  admin_name : String
  admin_email : String
  admin_password : String
  plan : String
  accept_terms : Bool
  accept_privacy : Bool
deriving DecidableEq, Repr

/-- The `OrganizationRegistrationResponse`. -/
structure RegResponse where
  organization_id : String
  organization_name : String
  organization_domain : String
  admin_user_id : String
  access_token : Token
  message : String
deriving DecidableEq, Repr

/-- Endpoint `POST /organizations/register`: terms check, case-normalized domain
uniqueness, global admin-email uniqueness, password strength; then create a
trial organization with a 14-day window, an auto-verified owning admin user,
back-fill `owner_id`/`current_users = 1`, and issue an org-scoped token.
`orgId`/`userId` stand for the generated `uuid4` ids. -/
def register_organization (db : DB) (reg : RegistrationInput) (now : Int)
    (orgId userId : String) : Result (RegResponse × DB) :=
  if ¬ (reg.accept_terms ∧ reg.accept_privacy) then
    .error ⟨400, "Must accept terms and conditions and privacy policy"⟩
  else if (db.organizations.find? (fun o => o.domain == pyLower reg.organization_domain)).isSome then
    .error ⟨400, "Organization domain already exists. Please choose a different domain."⟩
  else if (db.users.find? (fun u => u.email == reg.admin_email)).isSome then
    .error ⟨400, "Email address already registered. Please use a different email or login to your existing account."⟩
  else if ¬ _validate_password_strength reg.admin_password then
    .error ⟨400, "Password must be at least 8 characters long and contain uppercase, lowercase, and numbers"⟩
  else
    let org : OrgDoc :=
      { id := orgId
        name := reg.organization_name
        domain := pyLower reg.organization_domain
        email := reg.admin_email
        plan := reg.plan
        status := "trial"
        max_users := 5
        current_users := 0
        trial_ends_at := some (now + 14 * 86400)
        owner_id := none }
    let admin : UserDoc :=
      { id := userId
        name := reg.admin_name
        email := reg.admin_email
        role := "admin"
        status := "offline"
        organization_id := some orgId
        is_organization_owner := true
        email_verified := true
        last_active := none
        password := hash_password reg.admin_password }
    let orgs' := (updateFirst (db.organizations ++ [org]) (fun o => o.id == orgId)
      (fun o => { o with owner_id := some userId, current_users := 1 })).2
    let token : Token := ⟨some admin.email, userId, orgId⟩
    .ok
      ( { organization_id := orgId
          organization_name := org.name
          organization_domain := org.domain
          admin_user_id := userId
          access_token := token
          message := "Organization '" ++ org.name ++ "' created successfully! You have been automatically logged in as the administrator." }
      , { db with organizations := orgs', users := db.users ++ [admin] } )

/-- The generic `forgot-password` success message. -/
def genericResetMsg : String :=
  "If an account with this email exists, you will receive a password reset link."

/-- The `forgot-password` JSON response: `email_sent = none` models the field
being absent from the response body. -/
structure ForgotResp where
  message : String
  email_sent : Option Bool
deriving DecidableEq, Repr

/-- Endpoint `POST /auth/forgot-password`: generic response for unknown emails,
organization-less users and inactive organizations; otherwise mark the prior
unused token for the email as used (`update_one`), insert a fresh one-hour
token carrying the user's organization, and answer generic **plus an
`email_sent` flag**.  `emailOk` is the email collaborator's outcome;
`newId`/`newTok` stand for the generated `uuid4` values. -/
def forgot_password (db : DB) (email : String) (now : Int) (newId newTok : String)
    (emailOk : Bool) : Result (ForgotResp × DB) :=
  match db.users.find? (fun u => u.email == email) with
  | none => .ok (⟨genericResetMsg, none⟩, db)
  | some user =>
    if ¬ truthy user.organization_id then .ok (⟨genericResetMsg, none⟩, db)
    else
      match db.organizations.find? (fun o => some o.id == user.organization_id) with
      | none => .ok (⟨genericResetMsg, none⟩, db)
      | some org =>
        if org.status ≠ "active" then .ok (⟨genericResetMsg, none⟩, db)
        else
          let tokens1 := (updateFirst db.reset_tokens
            (fun t => t.email == email && !t.used)
            (fun t => { t with used := true })).2
          let fresh : ResetTokenDoc :=
            { id := newId
              email := email
              token := newTok
              expires_at := now + 3600
              created_at := now
              used := false
              organization_id := user.organization_id }
          .ok (⟨genericResetMsg, some emailOk⟩,
               { db with reset_tokens := tokens1 ++ [fresh] })

/-- Endpoint `POST /auth/reset-password`: look up the token with `used = False`
(`400` otherwise), reject expiry, resolve the user by the token's email,
enforce the token's organization binding and the user's organization
presence, update the password under the organization filter, mark the token
used. -/
def reset_password (db : DB) (tok : String) (new_password : String) (now : Int) :
    Result (String × DB) :=
  match db.reset_tokens.find? (fun t => t.token == tok && !t.used) with
  | none => .error ⟨400, "Invalid or expired reset token"⟩
  | some t =>
    if t.expires_at < now then .error ⟨400, "Reset token has expired"⟩
    else
      match db.users.find? (fun u => u.email == t.email) with
      | none => .error ⟨400, "User not found"⟩
      | some user =>
        if truthy t.organization_id ∧ user.organization_id ≠ t.organization_id then
          .error ⟨400, "Invalid reset token"⟩
        else if ¬ truthy user.organization_id then
          .error ⟨400, "User account needs to be migrated. Please contact support."⟩
        else
          let users' := (updateFirst db.users
            (fun u => u.email == t.email && u.organization_id == user.organization_id)
            (fun u => { u with password := hash_password new_password })).2
          let tokens' := (updateFirst db.reset_tokens (fun t' => t'.token == tok)
            (fun t' => { t' with used := true })).2
          .ok ("Password has been reset successfully",
               { db with users := users', reset_tokens := tokens' })

/-- A `real_time_activity` snapshot document, with the fields
`check_for_alerts` reads. -/
structure RTActivity where
  user_id : String
  organization_id : String
  timestamp : Int
  current_activity_level : ℚ
  productivity_level : String
  tracking_status : String
deriving DecidableEq, Repr

/-- A `ProductivityAlert` as constructed by `check_for_alerts`. -/
structure Alert where
  organization_id : String
  user_id : String
  alert_type : String
  severity : String
  title : String
  message : String
  metric_value : ℚ
  threshold_value : ℚ
deriving DecidableEq, Repr

/-- Method `ProductivityAnalyzer.check_for_alerts`: over the snapshots of the
trailing 30-minute window for the user/organization, emit
`low_activity` when the *current* activity level is `< 10` **and** ≥ 3
window snapshots are `< 10`; `productivity_drop` when the *current*
productivity level is low/very-low **and** ≥ 4 window snapshots are; and
`excessive_idle` (ungated) when ≥ 6 window snapshots are idle. -/
def check_for_alerts (activity : List RTActivity) (user_id organization_id : String)
    (now : Int) (current_activity_level : ℚ) (current_productivity_level : String) :
    List Alert :=
  let recent := activity.filter (fun a =>
    a.user_id == user_id && a.organization_id == organization_id &&
      decide (now - 30 * 60 ≤ a.timestamp))
  let lowActivityPeriods :=
    (recent.filter (fun a => a.current_activity_level < 10)).length
  let lowAlerts : List Alert :=
    if current_activity_level < 10 ∧ 3 ≤ lowActivityPeriods then
      [ { organization_id := organization_id
          user_id := user_id
          alert_type := "low_activity"
          severity := "medium"
          title := "Low Activity Detected"
          message := "User has shown low activity for the past " ++
            toString (lowActivityPeriods * 5) ++ " minutes"
          metric_value := current_activity_level
          threshold_value := 10 } ]
    else []
  let recentLowProductivity :=
    (recent.filter (fun a =>
      a.productivity_level == "low" || a.productivity_level == "very_low")).length
  let dropAlerts : List Alert :=
    if (current_productivity_level = "low" ∨ current_productivity_level = "very_low") ∧
        4 ≤ recentLowProductivity then
      [ { organization_id := organization_id
          user_id := user_id
          alert_type := "productivity_drop"
          severity := "high"
          title := "Productivity Drop Alert"
          message := "User productivity has been consistently low"
          metric_value := 0
          threshold_value := 40 } ]
    else []
  let recentIdlePeriods :=
    (recent.filter (fun a => a.tracking_status == "idle")).length
  let idleAlerts : List Alert :=
    if 6 ≤ recentIdlePeriods then
      [ { organization_id := organization_id
          user_id := user_id
          alert_type := "excessive_idle"
          severity := "medium"
          title := "Excessive Idle Time"
          message := "User has been idle for extended periods"
          metric_value := (recentIdlePeriods * 5 : ℚ)
          threshold_value := 30 } ]
    else []
  lowAlerts ++ dropAlerts ++ idleAlerts

/-! ## Concrete fixtures -/

/-- A stored user bound to organization `orgA` (no read-time blemishes). -/
def legacyUser : UserDoc :=
  { id := "u1", name := "Ada", email := "ada@acme.io", role := "user",
    status := "offline", organization_id := some "orgA",
    is_organization_owner := false, email_verified := true,
    last_active := none, password := "h" }

/-- A stored user whose `organization_id` is null/absent (pre-migration row). -/
def orglessUser : UserDoc :=
  { id := "u1", name := "Ada", email := "ada@acme.io", role := "user",
    status := "offline", organization_id := none,
    is_organization_owner := false, email_verified := true,
    last_active := none, password := "h" }

/-! ## Small facts about the auth helpers -/

theorem truthy_none : truthy none = false := rfl

theorem truthy_some_of_ne {s : String} (h : s ≠ "") : truthy (some s) = true := by
  simp [truthy, h]

theorem cleanupUser_organization_id (u : UserDoc) :
    (cleanupUser u).organization_id = u.organization_id := by
  unfold cleanupUser
  dsimp only
  split <;> split <;> rfl

/-! ## C2 — legacy-shaped tokens -/

/-- C2 counterexample: a verified **legacy-shaped** token (bare user_id
string) for an existing organization-bound user is *trusted* by
`get_current_user` — it resolves to a principal instead of failing with an
Unauthorized / re-authentication-required error. -/
theorem C2_counterexample :
    get_current_user [legacyUser] (.legacy "u1") = .ok legacyUser := by
  rfl

/-- C2 (amended): only the token-refresh endpoint rejects a legacy-shaped
token (`401`, "Token format outdated. Please log in again.");
`get_current_user` trusts a legacy token, skipping the organization-context
comparison, and returns the principal whenever the bare user_id names an
existing user whose record carries an `organization_id`. -/
theorem C2_amended (users : List UserDoc) (uid : String) (u : UserDoc)
    (hfind : users.find? (fun v => v.id == uid) = some u)
    (horg : truthy (cleanupUser u).organization_id = true)
    (huid : uid ≠ "") :
    refresh_token users (.legacy uid) =
      .error ⟨401, "Token format outdated. Please log in again."⟩ ∧
    get_current_user users (.legacy uid) = .ok (cleanupUser u) := by
  refine ⟨rfl, ?_⟩
  have h1 : truthy (some uid) = true := truthy_some_of_ne huid
  simp [get_current_user, h1, truthy_none, hfind, horg]

/-- C2 witness: the amended behaviour at a concrete store and token. -/
theorem C2_witness :
    refresh_token [legacyUser] (.legacy "u1") =
      .error ⟨401, "Token format outdated. Please log in again."⟩ ∧
    get_current_user [legacyUser] (.legacy "u1") = .ok (cleanupUser legacyUser) :=
  C2_amended [legacyUser] "u1" legacyUser (by decide) (by decide) (by decide)

/-! ## C3 — organization-carrying tokens -/

/-- C3 counterexample: a verified token carrying `org_id = "orgA"` for a
stored user whose `organization_id` is null fails with the
organization-mismatch `401`, **not** with the distinct needs-migration
message the claim requires for null stored organizations. -/
theorem C3_counterexample :
    get_current_user [orglessUser] (.claims (some "u1") none (some "orgA")) =
      .error ⟨401, "Invalid organization context"⟩ ∧
    "Invalid organization context" ≠ migrationDetail :=
  ⟨rfl, by decide⟩

/-- C3 (amended): for a verified token carrying a nonempty
`organization_id` claim, resolution fails `401` whenever the stored user's
`organization_id` differs from the token's — including when the stored value
is null/absent, in which case the failure carries the organization-mismatch
message rather than the needs-migration message (the latter can only arise
for tokens without organization context); when the user exists and the
stored organization equals the token's, the principal is returned. -/
theorem C3_amended (users : List UserDoc) (uid orgS : String) (sub : Option String)
    (u : UserDoc)
    (huid : uid ≠ "") (horg : orgS ≠ "")
    (hfind : users.find? (fun v => v.id == uid) = some u) :
    (u.organization_id ≠ some orgS →
      get_current_user users (.claims (some uid) sub (some orgS)) =
        .error ⟨401, "Invalid organization context"⟩) ∧
    (u.organization_id = some orgS →
      get_current_user users (.claims (some uid) sub (some orgS)) =
        .ok (cleanupUser u)) := by
  have h1 : truthy (some uid) = true := truthy_some_of_ne huid
  have h2 : truthy (some orgS) = true := truthy_some_of_ne horg
  have hpy : pyOr (some uid) sub = some uid := by
    simp [pyOr, h1]
  constructor
  · intro hne
    simp [get_current_user, hpy, h1, h2, hfind, hne]
  · intro heq
    have horgc : (cleanupUser u).organization_id = some orgS := by
      rw [cleanupUser_organization_id, heq]
    simp [get_current_user, hpy, h1, h2, hfind, heq, horgc]

/-- C3 witness: amended behaviour at concrete inputs (stored org `orgB`
against token org `orgA`, and the matching case). -/
theorem C3_witness :
    ((legacyUser.organization_id ≠ some "orgB" →
      get_current_user [legacyUser] (.claims (some "u1") none (some "orgB")) =
        .error ⟨401, "Invalid organization context"⟩) ∧
     (legacyUser.organization_id = some "orgB" →
      get_current_user [legacyUser] (.claims (some "u1") none (some "orgB")) =
        .ok (cleanupUser legacyUser))) ∧
    ((legacyUser.organization_id ≠ some "orgA" →
      get_current_user [legacyUser] (.claims (some "u1") none (some "orgA")) =
        .error ⟨401, "Invalid organization context"⟩) ∧
     (legacyUser.organization_id = some "orgA" →
      get_current_user [legacyUser] (.claims (some "u1") none (some "orgA")) =
        .ok (cleanupUser legacyUser))) :=
  ⟨C3_amended [legacyUser] "u1" "orgB" none legacyUser (by decide) (by decide) (by decide),
   C3_amended [legacyUser] "u1" "orgA" none legacyUser (by decide) (by decide) (by decide)⟩

/-! ## C10 — `get_optional_user` -/

/-- C10: `get_optional_user` yields no principal for any new-format claims
token (the whole claims object is the `{"id": …}` filter value and matches
no stored string id), while a legacy bare-string token naming an existing
user yields that user with no organization comparison and no migration
guard — in the very state in which `get_current_user` fails with the
needs-migration `401`. -/
theorem C10_optional_user (users : List UserDoc) (uid : String) (u : UserDoc)
    (hfind : users.find? (fun v => v.id == uid) = some u)
    (huid : uid ≠ "")
    (hnoorg : truthy (cleanupUser u).organization_id = false) :
    (∀ u? s? o?, get_optional_user users (some (.claims u? s? o?)) = none) ∧
    get_optional_user users (some (.legacy uid)) = some (cleanupUser u) ∧
    get_current_user users (.legacy uid) = .error ⟨401, migrationDetail⟩ := by
  refine ⟨?_, ?_, ?_⟩
  · intro u? s? o?
    have hnone : users.find? (idFilterMatches (.claims u? s? o?)) = none := by
      apply List.find?_eq_none.mpr
      intro x _
      simp [idFilterMatches]
    simp only [get_optional_user]
    split
    · rfl
    · rw [hnone]
  · have : users.find? (idFilterMatches (.legacy uid)) = some u := by
      simpa [idFilterMatches] using hfind
    simp [get_optional_user, payloadTruthy, huid, this]
  · have h1 : truthy (some uid) = true := truthy_some_of_ne huid
    simp [get_current_user, h1, truthy_none, hfind, hnoorg]

/-- C10 witness: a pre-migration user is returned by `get_optional_user`
but rejected by `get_current_user`. -/
theorem C10_witness :
    (∀ u? s? o?, get_optional_user [orglessUser] (some (.claims u? s? o?)) = none) ∧
    get_optional_user [orglessUser] (some (.legacy "u1")) = some (cleanupUser orglessUser) ∧
    get_current_user [orglessUser] (.legacy "u1") = .error ⟨401, migrationDetail⟩ :=
  C10_optional_user [orglessUser] "u1" orglessUser (by decide) (by decide) (by decide)

/-! ## C8 — forgot-password account enumeration -/

/-- An active organization `o1`. -/
def activeOrg : OrgDoc :=
  { id := "o1", name := "Acme", domain := "acme", email := "ada@acme.io",
    plan := "free", status := "active", max_users := 5, current_users := 1,
    trial_ends_at := none, owner_id := some "u1" }

/-- A user of the active organization `o1`. -/
def orgUser : UserDoc :=
  { id := "u1", name := "Ada", email := "ada@acme.io", role := "user",
    status := "offline", organization_id := some "o1",
    is_organization_owner := false, email_verified := true,
    last_active := none, password := "h" }

/-- A store holding one active organization and its one user. -/
def resetDB : DB :=
  { users := [orgUser], organizations := [activeOrg], projects := [],
    tasks := [], time_entries := [], reset_tokens := [] }

/-- C8 failing input, evaluated: the `forgot-password` response for the
**existing** account (`ada@acme.io`, active organization) carries an extra
`email_sent` field, while the response for the **unknown** email
(`nobody@acme.io`) is the bare generic message — so the two responses are
distinguishable, revealing whether the account exists. -/
theorem C8_responses_differ :
    (forgot_password resetDB "ada@acme.io" 1000 "rid" "rtok" false).map Prod.fst =
      .ok ⟨genericResetMsg, some false⟩ ∧
    (forgot_password resetDB "nobody@acme.io" 1000 "rid" "rtok" false).map Prod.fst =
      .ok ⟨genericResetMsg, none⟩ ∧
    (⟨genericResetMsg, some false⟩ : ForgotResp) ≠ ⟨genericResetMsg, none⟩ := by
  refine ⟨rfl, rfl, by decide⟩

/-! ## C9 — productivity alert thresholds -/

/-- A low-activity snapshot for `u1`/`o1` at time `ts`. -/
def lowSnap (ts : Int) : RTActivity :=
  { user_id := "u1", organization_id := "o1", timestamp := ts,
    current_activity_level := 0, productivity_level := "high",
    tracking_status := "active" }

/-- C9 counterexample: three in-window snapshots with activity level `< 10`
(at `t = 100, 200, 300`, window cutoff `1000 - 1800`), yet **no**
`low_activity` alert is raised, because the current activity level (50) is
not below 10 — the code gates the alert on the current level, which the
claim omits. -/
theorem C9_counterexample :
    check_for_alerts [lowSnap 100, lowSnap 200, lowSnap 300] "u1" "o1" 1000 50 "high"
      = [] := by
  rfl

/-- C9 (amended): over the trailing 30-minute window, `low_activity` is
raised iff the current activity level is `< 10` **and** ≥ 3 window
snapshots are `< 10`; `productivity_drop` iff the current productivity
level is low/very-low **and** ≥ 4 window snapshots are; `excessive_idle`
iff ≥ 6 window snapshots are idle (no gate). -/
theorem C9_alert_characterization (activity : List RTActivity)
    (uid org : String) (now : Int) (cur : ℚ) (curProd : String) :
    let recent := activity.filter (fun a =>
      a.user_id == uid && a.organization_id == org &&
        decide (now - 30 * 60 ≤ a.timestamp))
    let alerts := check_for_alerts activity uid org now cur curProd
    ((alerts.any fun a => a.alert_type == "low_activity") ↔
       cur < 10 ∧ 3 ≤ (recent.filter (fun a => a.current_activity_level < 10)).length) ∧
    ((alerts.any fun a => a.alert_type == "productivity_drop") ↔
       (curProd = "low" ∨ curProd = "very_low") ∧
         4 ≤ (recent.filter (fun a =>
           a.productivity_level == "low" || a.productivity_level == "very_low")).length) ∧
    ((alerts.any fun a => a.alert_type == "excessive_idle") ↔
       6 ≤ (recent.filter (fun a => a.tracking_status == "idle")).length) := by
  unfold check_for_alerts
  dsimp only
  refine ⟨?_, ?_, ?_⟩ <;>
    · split <;> split <;> split <;> simp_all

/-! ## Generic facts about `updateFirst` / `deleteFirst` -/

theorem updateFirst_fst_eq_any (l : List α) (p : α → Bool) (f : α → α) :
    (updateFirst l p f).1 = l.any p := by
  induction l with
  | nil => rfl
  | cons x xs ih =>
    by_cases hx : p x = true
    · simp [updateFirst, hx]
    · simp [updateFirst, hx, ih]

/-- Updating the first `p`-match, when `f` keeps `p` true, moves `find? p`
to the updated element. -/
theorem find?_updateFirst_self (l : List α) (p : α → Bool) (f : α → α)
    (hf : ∀ a, p a = true → p (f a) = true) (x : α)
    (hx : l.find? p = some x) :
    (updateFirst l p f).2.find? p = some (f x) := by
  induction l with
  | nil => simp at hx
  | cons y ys ih =>
    by_cases hy : p y = true
    · rw [List.find?_cons_of_pos _ hy] at hx
      cases hx
      simp [updateFirst, hy, List.find?_cons_of_pos _ (hf _ hy)]
    · rw [List.find?_cons_of_neg _ hy] at hx
      simp [updateFirst, hy, List.find?_cons_of_neg _ hy, ih hx]

/-- Updating the first `q`-match, where any `p`-match is a `q`-match, two
`q`-matches cannot both occur in an `r`-pairwise list, and `f` preserves
`p`-matches, moves `find? p` to the updated element. -/
theorem find?_updateFirst_pairwise (l : List α) (p q : α → Bool) (f : α → α)
    (r : α → α → Prop) (hl : l.Pairwise r)
    (hpq : ∀ a, p a = true → q a = true)
    (hqr : ∀ a b, q a = true → q b = true → ¬ r a b)
    (hfp : ∀ a, p a = true → p (f a) = true)
    (x : α) (hx : l.find? p = some x) :
    (updateFirst l q f).2.find? p = some (f x) := by
  induction l with
  | nil => simp at hx
  | cons y ys ih =>
    rw [List.pairwise_cons] at hl
    by_cases hy : p y = true
    · rw [List.find?_cons_of_pos _ hy] at hx
      cases hx
      simp [updateFirst, hpq _ hy, List.find?_cons_of_pos _ (hfp _ hy)]
    · rw [List.find?_cons_of_neg _ hy] at hx
      by_cases hyq : q y = true
      · exfalso
        have hxm : x ∈ ys := List.mem_of_find?_eq_some hx
        have hxp : p x = true := List.find?_some hx
        exact hqr y x hyq (hpq x hxp) (hl.1 x hxm)
      · simp [updateFirst, hyq, List.find?_cons_of_neg _ hy, ih hl.2 hx]

/-- Marking the first `p`-match so that it no longer matches decrements the
`p`-count exactly when a match exists. -/
theorem countP_updateFirst_flip (l : List α) (p : α → Bool) (f : α → α)
    (hf : ∀ a, p a = true → p (f a) = false) :
    (updateFirst l p f).2.countP p = l.countP p - (if l.any p then 1 else 0) := by
  induction l with
  | nil => rfl
  | cons x xs ih =>
    by_cases hx : p x = true
    · simp [updateFirst, hx, List.countP_cons, hf x hx]
    · simp [updateFirst, hx, List.countP_cons, ih]

/-- Lemma: `updateFirst` never raises a count whose matches it cannot create. -/
theorem countP_updateFirst_le (l : List α) (p q : α → Bool) (f : α → α)
    (hf : ∀ a, q (f a) = true → q a = true) :
    (updateFirst l p f).2.countP q ≤ l.countP q := by
  induction l with
  | nil => simp [updateFirst]
  | cons x xs ih =>
    simp only [updateFirst]
    by_cases hx : p x = true
    · rw [if_pos hx]
      simp only [List.countP_cons]
      by_cases hq : q (f x) = true
      · simp only [hq, hf x hq]
        omega
      · simp only [Bool.not_eq_true] at hq
        simp only [hq, Bool.false_eq_true, if_false]
        split <;> omega
    · rw [if_neg hx]
      simp only [List.countP_cons]
      have := ih
      split <;> omega

/-! ## C1 — cross-tenant access collapses to NotFound -/

/-- C1: for a principal of one organization, every lookup/update/delete of
a project, task or time entry that belongs to a *different* organization
fails with the same `404 NotFound` the endpoint produces when no resource
with that id exists at all — never with `Forbidden` (the `403`-raising
`validate_organization_access` helper is referenced by no route).
Hypotheses: ids are unique per collection, and time entries are
owner-consistent (an entry of another organization is owned by a user of
that organization, so its `user_id` differs from the principal's — the
invariant `start`/`manual` creation maintains, both set `user_id` and
`organization_id` from the principal). -/
theorem C1_cross_tenant_not_found (db : DB) (cu : Principal)
    (p : ProjectDoc) (t : TaskDoc) (e : TimeEntryDoc) (tu : TaskUpdate)
    (now now2 : Int)
    (hp : p ∈ db.projects) (hporg : p.organization_id ≠ cu.organization_id)
    (hpuniq : ∀ q ∈ db.projects, q.id = p.id → q = p)
    (ht : t ∈ db.tasks) (htorg : t.organization_id ≠ cu.organization_id)
    (htuniq : ∀ s ∈ db.tasks, s.id = t.id → s = t)
    (he : e ∈ db.time_entries) (heorg : e.organization_id ≠ cu.organization_id)
    (heuniq : ∀ g ∈ db.time_entries, g.id = e.id → g = e)
    (howner : ∀ g ∈ db.time_entries,
      g.organization_id ≠ cu.organization_id → g.user_id ≠ cu.id)
    (hid : pyStrip e.id ≠ "") :
    get_project db.projects cu p.id = .error ⟨404, "Project not found"⟩ ∧
    update_task db cu t.id tu now = .error ⟨404, "Task not found"⟩ ∧
    delete_project db cu p.id = .error ⟨404, "Project not found"⟩ ∧
    stop_time_tracking db cu e.id now2 = .error ⟨404, "Time entry not found"⟩ ∧
    (∀ projects' : List ProjectDoc, (∀ q ∈ projects', q.id ≠ p.id) →
      get_project projects' cu p.id = .error ⟨404, "Project not found"⟩) := by
  have hproj : db.projects.find?
      (fun q => q.id == p.id && q.organization_id == cu.organization_id) = none := by
    apply List.find?_eq_none.mpr
    intro q hq
    simp only [Bool.and_eq_true, beq_iff_eq, not_and]
    intro hqid
    rw [hpuniq q hq hqid]
    exact hporg
  have htask : db.tasks.find?
      (fun s => s.id == t.id && s.organization_id == cu.organization_id) = none := by
    apply List.find?_eq_none.mpr
    intro s hs
    simp only [Bool.and_eq_true, beq_iff_eq, not_and]
    intro hsid
    rw [htuniq s hs hsid]
    exact htorg
  have hentry : db.time_entries.find?
      (fun g => g.id == e.id && g.user_id == cu.id) = none := by
    apply List.find?_eq_none.mpr
    intro g hg
    simp only [Bool.and_eq_true, beq_iff_eq, not_and]
    intro hgid
    rw [heuniq g hg hgid]
    exact howner e he heorg
  have hidb : (pyStrip e.id == "") = false := by
    simp [hid]
  refine ⟨?_, ?_, ?_, ?_, ?_⟩
  · simp [get_project, hproj]
  · simp [update_task, htask]
  · simp [delete_project, hproj]
  · simp [stop_time_tracking, hidb, hentry]
  · intro projects' hfresh
    have : projects'.find?
        (fun q => q.id == p.id && q.organization_id == cu.organization_id) = none := by
      apply List.find?_eq_none.mpr
      intro q hq
      simp only [Bool.and_eq_true, beq_iff_eq, not_and]
      intro hqid
      exact absurd hqid (hfresh q hq)
    simp [get_project, this]

/-- A project, task and time entry all belonging to organization `orgB`,
with an `orgB` owner `u2`. -/
def projB : ProjectDoc :=
  { id := "p9", name := "Secret", organization_id := "orgB", created_by := "u2",
    hours_tracked := 0 }

def taskB : TaskDoc :=
  { id := "t9", project_id := "p9", organization_id := "orgB",
    assignee_id := "u2", status := "todo", updated_at := 0 }

def entryB : TimeEntryDoc :=
  { id := "e9", user_id := "u2", organization_id := "orgB", project_id := "p9",
    task_id := none, start_time := some 0, end_time := none, duration := none,
    is_paused := false, pause_periods := [], total_pause_duration := 0 }

/-- The store holding only organization `orgB` data, probed by an `orgA`
principal. -/
def dbOrgB : DB :=
  { users := [], organizations := [], projects := [projB], tasks := [taskB],
    time_entries := [entryB], reset_tokens := [] }

/-- The probing principal from organization `orgA`. -/
def cuA : Principal := { id := "u1", organization_id := "orgA", role := "admin" }

/-- C1 witness: the cross-tenant probes at a concrete store. -/
theorem C1_witness :
    get_project dbOrgB.projects cuA projB.id = .error ⟨404, "Project not found"⟩ ∧
    update_task dbOrgB cuA taskB.id ⟨some "done", none⟩ 5 = .error ⟨404, "Task not found"⟩ ∧
    delete_project dbOrgB cuA projB.id = .error ⟨404, "Project not found"⟩ ∧
    stop_time_tracking dbOrgB cuA entryB.id 7 = .error ⟨404, "Time entry not found"⟩ ∧
    (∀ projects' : List ProjectDoc, (∀ q ∈ projects', q.id ≠ projB.id) →
      get_project projects' cuA projB.id = .error ⟨404, "Project not found"⟩) :=
  C1_cross_tenant_not_found dbOrgB cuA projB taskB entryB ⟨some "done", none⟩ 5 7
    (by decide) (by decide) (by decide)
    (by decide) (by decide) (by decide)
    (by decide) (by decide) (by decide)
    (by decide) (by decide)

/-! ## C7 — single-use, single-valid password reset tokens -/

/-- Number of unused reset tokens stored for an email. -/
def unusedCount (tokens : List ResetTokenDoc) (em : String) : Nat :=
  tokens.countP (fun t => t.email == em && !t.used)

/-- After `update_one`-marking the first document with a given token string
as used, no unused document with that token string remains (token strings
are unique). -/
theorem find?_unused_after_mark (l : List ResetTokenDoc) (tok : String)
    (hnd : l.Pairwise (fun a b => a.token ≠ b.token)) :
    (updateFirst l (fun t' => t'.token == tok)
        (fun t' => { t' with used := true })).2.find?
      (fun t' => t'.token == tok && !t'.used) = none := by
  induction l with
  | nil => rfl
  | cons x xs ih =>
    rw [List.pairwise_cons] at hnd
    simp only [updateFirst]
    by_cases hx : (x.token == tok) = true
    · rw [if_pos hx]
      apply List.find?_eq_none.mpr
      intro y hy
      rcases List.mem_cons.mp hy with hy | hy
      · subst hy
        simp
      · simp only [Bool.and_eq_true, beq_iff_eq, not_and]
        intro hytok
        exfalso
        exact hnd.1 y hy ((beq_iff_eq.mp hx).trans hytok.symm)
    · rw [if_neg hx]
      rw [List.find?_cons_of_neg, ih hnd.2]
      simp only [Bool.and_eq_true, not_and]
      intro h
      exact absurd h hx

/-- C7: at most one unused reset token per email is ever valid — the bound
is preserved by `forgot_password` (which marks the prior unused token used
before inserting the fresh one) and by `reset_password` (which only flips
tokens to used); and after a successful reset, replaying the same token
fails with the invalid-token error, so the password is never updated a
second time. -/
theorem C7_reset_token_invariant (db : DB)
    (hInv : ∀ em, unusedCount db.reset_tokens em ≤ 1)
    (hnd : db.reset_tokens.Pairwise (fun a b => a.token ≠ b.token)) :
    (∀ email now nid ntok eok r db',
      forgot_password db email now nid ntok eok = .ok (r, db') →
      ∀ em, unusedCount db'.reset_tokens em ≤ 1) ∧
    (∀ tok pw now m db',
      reset_password db tok pw now = .ok (m, db') →
      (∀ em, unusedCount db'.reset_tokens em ≤ 1) ∧
      (∀ pw' now', reset_password db' tok pw' now' =
        .error ⟨400, "Invalid or expired reset token"⟩)) := by
  constructor
  · intro email now nid ntok eok r db' h em
    unfold forgot_password at h
    split at h
    · cases h; exact hInv em
    · split at h
      · cases h; exact hInv em
      · split at h
        · cases h; exact hInv em
        · split at h
          · cases h; exact hInv em
          · cases h
            simp only [unusedCount, List.countP_append, List.countP_cons,
              List.countP_nil]
            have hupd := countP_updateFirst_flip db.reset_tokens
              (fun t => t.email == email && !t.used)
              (fun t => { t with used := true })
              (by intro a ha; simp)
            by_cases hem : em = email
            · subst hem
              have hle := hInv em
              unfold unusedCount at hle
              rcases Nat.eq_zero_or_pos (List.countP
                  (fun t => t.email == em && !t.used) db.reset_tokens) with hz | hpos
              · have hany : (db.reset_tokens.any fun t => t.email == em && !t.used) = false := by
                  rw [List.any_eq_false]
                  intro x hx
                  simpa using List.countP_eq_zero.mp hz x hx
                rw [hany] at hupd
                simp only [Bool.false_eq_true, if_false, Nat.sub_zero] at hupd
                simp only [hupd]
                simp [hz]
              · have hany : (db.reset_tokens.any fun t => t.email == em && !t.used) = true := by
                  rw [List.any_eq_true]
                  obtain ⟨x, hx1, hx2⟩ := List.countP_pos_iff.mp hpos
                  exact ⟨x, hx1, hx2⟩
                rw [hany] at hupd
                simp only [if_pos] at hupd
                simp only [hupd]
                simp
                omega
            · have hle := countP_updateFirst_le db.reset_tokens
                (fun t => t.email == email && !t.used)
                (fun t => t.email == em && !t.used)
                (fun t => { t with used := true })
                (by intro a ha; simp at ha)
              have hIem := hInv em
              unfold unusedCount at hIem
              have hne : (email == em) = false :=
                beq_eq_false_iff_ne.mpr (fun hcontra => hem hcontra.symm)
              simp only [hne]
              simp
              omega
  · intro tok pw now m db' h
    unfold reset_password at h
    split at h
    · exact absurd h (by simp)
    · split at h
      · exact absurd h (by simp)
      · split at h
        · exact absurd h (by simp)
        · split at h
          · exact absurd h (by simp)
          · split at h
            · exact absurd h (by simp)
            · cases h
              constructor
              · intro em
                have hle := countP_updateFirst_le db.reset_tokens
                  (fun t' => t'.token == tok)
                  (fun t => t.email == em && !t.used)
                  (fun t' => { t' with used := true })
                  (by intro a ha; simp at ha)
                have := hInv em
                unfold unusedCount at this ⊢
                simp only
                omega
              · intro pw' now'
                unfold reset_password
                rw [find?_unused_after_mark db.reset_tokens tok hnd]

/-- A single outstanding (unused) reset token for `ada@acme.io`. -/
def resetTok1 : ResetTokenDoc :=
  { id := "rt1", email := "ada@acme.io", token := "tok1", expires_at := 5000,
    created_at := 1000, used := false, organization_id := some "o1" }

/-- The reset store: active organization, its user, one unused token. -/
def dbTok : DB :=
  { users := [orgUser], organizations := [activeOrg], projects := [],
    tasks := [], time_entries := [], reset_tokens := [resetTok1] }

/-- C7 witness: the invariant and single-use behaviour at a concrete store
with one outstanding reset token. -/
theorem C7_witness :
    (∀ email now nid ntok eok r db',
      forgot_password dbTok email now nid ntok eok = .ok (r, db') →
      ∀ em, unusedCount db'.reset_tokens em ≤ 1) ∧
    (∀ tok pw now m db',
      reset_password dbTok tok pw now = .ok (m, db') →
      (∀ em, unusedCount db'.reset_tokens em ≤ 1) ∧
      (∀ pw' now', reset_password db' tok pw' now' =
        .error ⟨400, "Invalid or expired reset token"⟩)) :=
  C7_reset_token_invariant dbTok
    (by
      intro em
      exact le_trans (List.countP_le_length _) (by simp [dbTok]))
    (by simp [dbTok])

/-! ## C5 — time-entry state machine preconditions -/

/-- C5: `start` fails while the user has any entry with `end_time = None`
(Running or Paused); `pause` fails on a stopped entry and on an
already-paused entry; `stop` fails on a stopped entry, so a successful stop
comes only from an entry with `end_time = None` (Running or Paused); and a
pause immediately following a successful pause always fails. -/
theorem C5_state_machine (db : DB) (cu : Principal) (eid : String) (now now' : Int) :
    (∀ pid tid nid,
      (∃ a ∈ db.time_entries, a.user_id = cu.id ∧ a.end_time = none) →
      start_time_tracking db cu pid tid now nid =
        .error ⟨400, "You already have an active time entry. Please stop it first."⟩) ∧
    (∀ e, db.time_entries.find? (fun x => x.id == eid && x.user_id == cu.id) = some e →
      pyStrip eid ≠ "" →
      ((∀ v, e.end_time = some v →
        pause_time_tracking db cu eid now =
          .error ⟨400, "Cannot pause a stopped time entry"⟩ ∧
        stop_time_tracking db cu eid now =
          .error ⟨400, "Time entry already stopped"⟩) ∧
      (e.end_time = none → e.is_paused = true →
        pause_time_tracking db cu eid now =
          .error ⟨400, "Time entry is already paused"⟩))) ∧
    (∀ x, stop_time_tracking db cu eid now = .ok x →
      ∃ e, db.time_entries.find? (fun y => y.id == eid && y.user_id == cu.id) = some e ∧
        e.end_time = none) ∧
    (db.time_entries.Pairwise (fun a b => a.id ≠ b.id) →
      ∀ r db1, pause_time_tracking db cu eid now = .ok (r, db1) →
        pause_time_tracking db1 cu eid now' =
          .error ⟨400, "Time entry is already paused"⟩) := by
  refine ⟨?_, ?_, ?_, ?_⟩
  · intro pid tid nid hex
    obtain ⟨a, ha, hau, hae⟩ := hex
    have hsome : ∃ y, db.time_entries.find?
        (fun e => e.user_id == cu.id && e.end_time == none) = some y := by
      cases hfind : db.time_entries.find?
          (fun e => e.user_id == cu.id && e.end_time == none) with
      | some y => exact ⟨y, rfl⟩
      | none =>
        exfalso
        have := List.find?_eq_none.mp hfind a ha
        simp [hau, hae] at this
    obtain ⟨y, hy⟩ := hsome
    simp [start_time_tracking, hy]
  · intro e hfind hstrip
    have hb : (pyStrip eid == "") = false := by simp [hstrip]
    constructor
    · intro v hv
      constructor
      · simp [pause_time_tracking, hb, hfind, hv]
      · simp [stop_time_tracking, hb, hfind, hv]
    · intro hnone hpaused
      simp [pause_time_tracking, hb, hfind, hnone, hpaused]
  · intro x hok
    unfold stop_time_tracking at hok
    split at hok
    · simp at hok
    · split at hok
      · simp at hok
      · next e hfind =>
        split at hok
        · simp at hok
        · next hend => exact ⟨e, hfind, hend⟩
  · intro hnd r db1 hok
    unfold pause_time_tracking at hok
    split at hok
    · simp at hok
    · next hstripb =>
      split at hok
      · simp at hok
      · next e hfind =>
        split at hok
        · simp at hok
        · next hend =>
          split at hok
          · simp at hok
          · next hnp =>
            dsimp only at hok
            split at hok
            · simp at hok
            · next hfound =>
              split at hok
              · simp at hok
              · next e2 hre =>
                cases hok
                have hb2 : (pyStrip eid == "") = false := by
                  simp only [Bool.not_eq_true] at hstripb
                  simpa using hstripb
                have hfind2 := find?_updateFirst_pairwise db.time_entries
                  (fun x => x.id == eid && x.user_id == cu.id)
                  (fun x => x.id == eid)
                  (fun e' => { e' with is_paused := true, pause_periods := e.pause_periods ++ [PausePeriod.mk now none] })
                  (fun a b => a.id ≠ b.id) hnd
                  (by
                    intro a ha
                    exact ((Bool.and_eq_true _ _).mp ha).1)
                  (by
                    intro a b ha hb3 hne
                    exact hne ((beq_iff_eq.mp ha).trans (beq_iff_eq.mp hb3).symm))
                  (by
                    intro a ha
                    simpa using (Bool.and_eq_true _ _).mp ha)
                  e hfind
                simp [pause_time_tracking, hb2, hfind2, hend]

/-- The user `u1` of organization `orgA` as principal. -/
def cuW : Principal := { id := "u1", organization_id := "orgA", role := "user" }

/-- A project of `orgA`. -/
def projW : ProjectDoc :=
  { id := "p1", name := "Proj", organization_id := "orgA", created_by := "u1",
    hours_tracked := 0 }

/-- A freshly started (Running) entry for `u1` started at `t0`. -/
def entryStarted (t0 : Int) : TimeEntryDoc :=
  { id := "e1", user_id := "u1", organization_id := "orgA", project_id := "p1",
    task_id := none, start_time := some t0, end_time := none, duration := none,
    is_paused := false, pause_periods := [], total_pause_duration := 0 }

/-- The store before any tracking. -/
def dbIdle : DB :=
  { users := [], organizations := [], projects := [projW], tasks := [],
    time_entries := [], reset_tokens := [] }

/-- The store holding the running entry. -/
def dbStarted (t0 : Int) : DB := { dbIdle with time_entries := [entryStarted t0] }

/-- The entry paused at `t1` (open pause period appended). -/
def entryPausedS (t0 t1 : Int) : TimeEntryDoc :=
  { entryStarted t0 with is_paused := true, pause_periods := [⟨t1, none⟩] }

/-- The store holding the paused entry. -/
def dbPausedS (t0 t1 : Int) : DB := { dbIdle with time_entries := [entryPausedS t0 t1] }

/-- C5 witness: at a concrete store holding a paused entry, starting again
fails, pausing again fails; and a pause of a running entry followed by a
second pause fails. -/
theorem C5_witness :
    start_time_tracking (dbPausedS 0 10) cuW "p1" none 20 "e2" =
      .error ⟨400, "You already have an active time entry. Please stop it first."⟩ ∧
    pause_time_tracking (dbPausedS 0 10) cuW "e1" 20 =
      .error ⟨400, "Time entry is already paused"⟩ ∧
    pause_time_tracking (dbPausedS 0 10) cuW "e1" 25 =
      .error ⟨400, "Time entry is already paused"⟩ := by
  have h := C5_state_machine (dbPausedS 0 10) cuW "e1" 20 25
  have h2 := C5_state_machine (dbStarted 0) cuW "e1" 10 20
  refine ⟨?_, ?_, ?_⟩
  · exact h.1 "p1" none "e2" ⟨entryPausedS 0 10, by decide, by decide, by decide⟩
  · exact (h.2.1 (entryPausedS 0 10) (by decide) (by decide)).2 (by decide) (by decide)
  · exact h2.2.2.2 (by decide) (entryPausedS 0 10) (dbPausedS 0 10) (by rfl)

/-! ## C4 — pause-aware duration accounting -/

/-- The entry after resuming at `t2`: pause period closed, pause total
recomputed over closed periods. -/
def entryResumedS (t0 t1 t2 : Int) : TimeEntryDoc :=
  { entryStarted t0 with
      is_paused := false
      pause_periods := [⟨t1, some t2⟩]
      total_pause_duration := 0 + (t2 - t1) }

/-- The store holding the resumed entry. -/
def dbResumedS (t0 t1 t2 : Int) : DB :=
  { dbIdle with time_entries := [entryResumedS t0 t1 t2] }

/-- C4: a `start → pause → resume → stop` run over wall clock `W = t3 - t0`
with pause `P = t2 - t1` persists `end_time` and `duration = W - P`; and
every successful stop, whatever the stored state and clock skew, persists a
non-negative duration (`raw_duration` is clamped at 0 and the final
duration is `max 0 (raw - total_pause)`). -/
theorem C4_duration_accounting (t0 t1 t2 t3 : Int)
    (h01 : t0 ≤ t1) (h12 : t1 ≤ t2) (h23 : t2 ≤ t3) :
    start_time_tracking dbIdle cuW "p1" none t0 "e1" =
      .ok (entryStarted t0, dbStarted t0) ∧
    pause_time_tracking (dbStarted t0) cuW "e1" t1 =
      .ok (entryPausedS t0 t1, dbPausedS t0 t1) ∧
    resume_time_tracking (dbPausedS t0 t1) cuW "e1" t2 =
      .ok (entryResumedS t0 t1 t2, dbResumedS t0 t1 t2) ∧
    (∃ db4, stop_time_tracking (dbResumedS t0 t1 t2) cuW "e1" t3 =
      .ok ({ entryResumedS t0 t1 t2 with
               end_time := some t3
               duration := some ((t3 - t0) - (t2 - t1)) }, db4)) ∧
    (∀ (db : DB) (cu : Principal) (eid : String) (nowx : Int)
       (e : TimeEntryDoc) (db' : DB),
      stop_time_tracking db cu eid nowx = .ok (e, db') →
      ∃ d, e.duration = some d ∧ 0 ≤ d) := by
  refine ⟨rfl, rfl, rfl, ?_, ?_⟩
  · have hdur : stopDuration (entryResumedS t0 t1 t2) t0 t3 = (t3 - t0) - (t2 - t1) := by
      have hpaused : (entryResumedS t0 t1 t2).is_paused = false := rfl
      have htotal : (entryResumedS t0 t1 t2).total_pause_duration = 0 + (t2 - t1) := rfl
      rw [stopDuration, pauseTotalAtStop, hpaused]
      simp only [Bool.false_eq_true, if_false]
      rw [htotal, if_neg (by omega : ¬ (t3 - t0 < 0))]
      omega
    have hstrip : (pyStrip "e1" == "") = false := by decide
    have hid : (entryResumedS t0 t1 t2).id = "e1" := rfl
    have huser : (entryResumedS t0 t1 t2).user_id = "u1" := rfl
    have hendf : (entryResumedS t0 t1 t2).end_time = none := rfl
    have hstartf : (entryResumedS t0 t1 t2).start_time = some t0 := rfl
    have hprojf : (entryResumedS t0 t1 t2).project_id = "p1" := rfl
    by_cases hpos : (0 : Int) < (t3 - t0) - (t2 - t1)
    · refine ⟨{ dbIdle with
          time_entries := [{ entryResumedS t0 t1 t2 with
            end_time := some t3
            duration := some ((t3 - t0) - (t2 - t1)) }]
          projects := [{ projW with
            hours_tracked := projW.hours_tracked +
              ((((t3 - t0) - (t2 - t1) : Int)) : ℚ) / 3600 }] }, ?_⟩
      simp [stop_time_tracking, dbResumedS, dbIdle, hstrip, hid, huser, hendf,
        hstartf, hprojf, hdur, updateFirst, projW, hpos, cuW]
    · refine ⟨{ dbIdle with
          time_entries := [{ entryResumedS t0 t1 t2 with
            end_time := some t3
            duration := some ((t3 - t0) - (t2 - t1)) }] }, ?_⟩
      simp [stop_time_tracking, dbResumedS, dbIdle, hstrip, hid, huser, hendf,
        hstartf, hprojf, hdur, updateFirst, hpos, cuW]
  · intro db cu eid nowx e db' hok
    unfold stop_time_tracking at hok
    split at hok
    · simp at hok
    · split at hok
      · simp at hok
      · next e0 hfind =>
        split at hok
        · simp at hok
        · next hend =>
          split at hok
          · simp at hok
          · next st hst =>
            dsimp only at hok
            split at hok
            · simp at hok
            · next hfound =>
              split at hok
              · simp at hok
              · next e2 hre =>
                cases hok
                have hany : db.time_entries.any (fun e' => e'.id == eid) = true := by
                  have := hfound
                  rw [Bool.not_eq_true, ← Bool.not_eq_true] at this
                  simp only [Classical.not_not] at this
                  rw [← updateFirst_fst_eq_any db.time_entries (fun e' => e'.id == eid)]
                  exact this
                have hex : ∃ x ∈ db.time_entries, (fun e' => e'.id == eid) x = true :=
                  List.any_eq_true.mp hany
                have hsomefind : (db.time_entries.find? (fun e' => e'.id == eid)).isSome := by
                  rw [List.find?_isSome]
                  exact hex
                obtain ⟨x0, hx0⟩ := Option.isSome_iff_exists.mp hsomefind
                have hupdfind := find?_updateFirst_self db.time_entries
                  (fun e' => e'.id == eid)
                  (fun e' => { e' with end_time := some nowx, duration := some (stopDuration e0 st nowx) })
                  (by intro a ha; exact ha) x0 hx0
                rw [hupdfind] at hre
                cases hre
                refine ⟨_, rfl, ?_⟩
                exact le_max_left _ _

/-- C4 witness: the run at `t0 = 0`, pause at 600, resume at 900, stop at
2400 — wall clock 2400, pause 300, persisted duration 2100. -/
theorem C4_witness :
    start_time_tracking dbIdle cuW "p1" none 0 "e1" =
      .ok (entryStarted 0, dbStarted 0) ∧
    pause_time_tracking (dbStarted 0) cuW "e1" 600 =
      .ok (entryPausedS 0 600, dbPausedS 0 600) ∧
    resume_time_tracking (dbPausedS 0 600) cuW "e1" 900 =
      .ok (entryResumedS 0 600 900, dbResumedS 0 600 900) ∧
    (∃ db4, stop_time_tracking (dbResumedS 0 600 900) cuW "e1" 2400 =
      .ok ({ entryResumedS 0 600 900 with
               end_time := some 2400
               duration := some ((2400 - 0) - (900 - 600)) }, db4)) ∧
    (∀ (db : DB) (cu : Principal) (eid : String) (nowx : Int)
       (e : TimeEntryDoc) (db' : DB),
      stop_time_tracking db cu eid nowx = .ok (e, db') →
      ∃ d, e.duration = some d ∧ 0 ≤ d) :=
  C4_duration_accounting 0 600 900 2400 (by norm_num) (by norm_num) (by norm_num)

/-! ## C6 — organization registration -/

/-- Lemma: `updateFirst` over a list whose only match is the appended last element
updates exactly that element. -/
theorem updateFirst_append_last (l : List α) (x : α) (p : α → Bool) (f : α → α)
    (hl : ∀ y ∈ l, p y = false) (hx : p x = true) :
    updateFirst (l ++ [x]) p f = (true, l ++ [f x]) := by
  induction l with
  | nil => simp [updateFirst, hx]
  | cons y ys ih =>
    have hy := hl y (by simp)
    simp only [List.cons_append, updateFirst, hy, Bool.false_eq_true, if_false,
      List.append_eq]
    rw [ih (fun z hz => hl z (by simp [hz]))]

/-- C6: registration is rejected on a case-normalized domain conflict, on an
admin email already owned by any user, and on a weak password (where weak
means: shorter than 8, or without an uppercase letter, lowercase letter or
digit); a successful registration appends a `trial` organization with a
14-day trial window and an auto-verified owning admin, and back-fills
`owner_id` and `current_users = 1`. -/
theorem C6_register_organization (db : DB) (reg : RegistrationInput)
    (now : Int) (orgId userId : String) :
    ((∃ o ∈ db.organizations, o.domain = pyLower reg.organization_domain) →
      ∃ err, register_organization db reg now orgId userId = .error err) ∧
    ((∃ u ∈ db.users, u.email = reg.admin_email) →
      ∃ err, register_organization db reg now orgId userId = .error err) ∧
    (_validate_password_strength reg.admin_password = false →
      ∃ err, register_organization db reg now orgId userId = .error err) ∧
    (∀ pw : String, _validate_password_strength pw = true ↔
      (8 ≤ pw.length ∧ pw.data.any Char.isUpper ∧ pw.data.any Char.isLower ∧
        pw.data.any Char.isDigit)) ∧
    (reg.accept_terms = true → reg.accept_privacy = true →
      db.organizations.find? (fun o => o.domain == pyLower reg.organization_domain) = none →
      db.users.find? (fun u => u.email == reg.admin_email) = none →
      _validate_password_strength reg.admin_password = true →
      (∀ o ∈ db.organizations, o.id ≠ orgId) →
      register_organization db reg now orgId userId =
        .ok (⟨orgId, reg.organization_name, pyLower reg.organization_domain, userId,
              ⟨some reg.admin_email, userId, orgId⟩,
              "Organization '" ++ reg.organization_name ++
                "' created successfully! You have been automatically logged in as the administrator."⟩,
             { db with
                 organizations := db.organizations ++
                   [{ id := orgId
                      name := reg.organization_name
                      domain := pyLower reg.organization_domain
                      email := reg.admin_email
                      plan := reg.plan
                      status := "trial"
                      max_users := 5
                      current_users := 1
                      trial_ends_at := some (now + 14 * 86400)
                      owner_id := some userId }]
                 users := db.users ++
                   [{ id := userId
                      name := reg.admin_name
                      email := reg.admin_email
                      role := "admin"
                      status := "offline"
                      organization_id := some orgId
                      is_organization_owner := true
                      email_verified := true
                      last_active := none
                      password := hash_password reg.admin_password }] })) := by
  refine ⟨?_, ?_, ?_, ?_, ?_⟩
  · rintro ⟨o, ho, hodom⟩
    have hsome : (db.organizations.find?
        (fun o' => o'.domain == pyLower reg.organization_domain)).isSome = true := by
      rw [List.find?_isSome]
      exact ⟨o, ho, by simp [hodom]⟩
    unfold register_organization
    split <;> first
      | exact ⟨_, rfl⟩
      | (simp_all <;> ((repeat' split) <;> exact ⟨_, rfl⟩))
  · rintro ⟨u, hu, huem⟩
    have hsome : (db.users.find? (fun u' => u'.email == reg.admin_email)).isSome = true := by
      rw [List.find?_isSome]
      exact ⟨u, hu, by simp [huem]⟩
    unfold register_organization
    split <;> first
      | exact ⟨_, rfl⟩
      | (simp_all <;> ((repeat' split) <;> exact ⟨_, rfl⟩))
  · intro hweak
    unfold register_organization
    split <;> first
      | exact ⟨_, rfl⟩
      | (simp_all <;> ((repeat' split) <;> exact ⟨_, rfl⟩))
  · intro pw
    unfold _validate_password_strength
    by_cases h : pw.length < 8
    · rw [if_pos h]
      simp only [Bool.false_eq_true, false_iff]
      rintro ⟨h8, _⟩
      omega
    · rw [if_neg h]
      simp only [Bool.and_eq_true]
      constructor
      · rintro ⟨⟨h1, h2⟩, h3⟩
        exact ⟨by omega, h1, h2, h3⟩
      · rintro ⟨_, h1, h2, h3⟩
        exact ⟨⟨h1, h2⟩, h3⟩
  · intro hterms hpriv hdomain hemail hstrength hfresh
    unfold register_organization
    rw [if_neg (by simp [hterms, hpriv])]
    rw [hdomain]
    simp only [Option.isSome_none, Bool.false_eq_true, if_false]
    rw [hemail]
    simp only [Option.isSome_none, Bool.false_eq_true, if_false]
    rw [if_neg (by simp [hstrength])]
    rw [updateFirst_append_last _ _ _ _
      (fun y hy => by simp [hfresh y hy]) (by simp)]

/-- The empty store. -/
def dbEmpty : DB :=
  { users := [], organizations := [], projects := [], tasks := [],
    time_entries := [], reset_tokens := [] }

/-- A registration request for domain `Acme` with a strong password. -/
def regW : RegistrationInput :=
  { organization_name := "Acme Corp"
    organization_domain := "Acme"
    admin_name := "Ada"
    admin_email := "ada@acme.io"
    admin_password := "Passw0rd1"
    plan := "free"
    accept_terms := true
    accept_privacy := true }

/-- C6 witness: a concrete successful registration on the empty store, and
the weak-password rejection by the same theorem. -/
theorem C6_witness :
    register_organization dbEmpty regW 1000 "org1" "user1" =
      .ok (⟨"org1", regW.organization_name, pyLower regW.organization_domain, "user1",
            ⟨some regW.admin_email, "user1", "org1"⟩,
            "Organization '" ++ regW.organization_name ++
              "' created successfully! You have been automatically logged in as the administrator."⟩,
           { dbEmpty with
               organizations := dbEmpty.organizations ++
                 [{ id := "org1"
                    name := regW.organization_name
                    domain := pyLower regW.organization_domain
                    email := regW.admin_email
                    plan := regW.plan
                    status := "trial"
                    max_users := 5
                    current_users := 1
                    trial_ends_at := some (1000 + 14 * 86400)
                    owner_id := some "user1" }]
               users := dbEmpty.users ++
                 [{ id := "user1"
                    name := regW.admin_name
                    email := regW.admin_email
                    role := "admin"
                    status := "offline"
                    organization_id := some "org1"
                    is_organization_owner := true
                    email_verified := true
                    last_active := none
                    password := hash_password regW.admin_password }] }) ∧
    (∃ err, register_organization dbEmpty { regW with admin_password := "weakpass" }
      1000 "org1" "user1" = .error err) :=
  ⟨(C6_register_organization dbEmpty regW 1000 "org1" "user1").2.2.2.2
      rfl rfl rfl rfl (by decide) (by decide),
   (C6_register_organization dbEmpty { regW with admin_password := "weakpass" }
      1000 "org1" "user1").2.2.1 (by decide)⟩

end Hubstaff
